import Mathlib

/-!
Shallow embedding of `internal/entity/entity.go` (photoprism): the schema
lifecycle orchestrator.  Database side effects are recorded as an explicit
event trace; the database collaborator is abstracted as an environment of
pure oracles (probe results per attempt, migrate/drop errors per entity).
Go `panic` is modelled as an `Outcome.panicked` result that aborts the
remainder of the composed operation.
-/

namespace Entity

/-- One observable collaborator call made by the lifecycle code. -/
inductive Event where
  /-- `Db().AutoMigrate(entity)` for the entity registered under a table name. -/
  | createCall (name : String)
  /-- The `DESCRIBE` probe query issued by `WaitForMigration` for a table. -/
  | probeCall (name : String)
  /-- `time.Sleep(50 * time.Millisecond)` between probe attempts. -/
  | sleep
  /-- One of the seed constructors `CreateUnknownPlace/Country/Camera/Lens`. -/
  | seedInsert (entity : String)
  /-- `Db().DropTableIfExists(entity)` for the entity registered under a table name. -/
  | dropCall (name : String)
  /-- `CreateTestFixtures()`. -/
  | fixtures
  /-- `SetDbProvider(db)`: registering the process-wide provider handle. -/
  | setProvider
  deriving DecidableEq, Repr

abbrev Trace := List Event

/-- How a lifecycle operation terminates: normal return, or a Go `panic`. -/
inductive Outcome where
  | ok
  | panicked
  deriving DecidableEq, Repr

/-- The database collaborator, abstracted as pure oracles.
`probe name i` is whether the `DESCRIBE` probe for table `name` succeeds on
loop iteration `i` (0-based); `migrateErr e` / `dropErr e` is whether the
`AutoMigrate` / `DropTableIfExists` call for the entity registered under
name `e` returns an error. -/
structure DbEnv where
  probe : String → Nat → Bool
  migrateErr : String → Bool
  dropErr : String → Bool

/-- A registry (`Types` map) as the list of its table names; Go map
iteration order is abstracted by the list order. -/
abbrev Registry := List String

/-- The table names of the global `Entities` registry. -/
def entities : Registry :=
  ["accounts", "files", "files_share", "files_sync", "photos", "descriptions",
   "places", "locations", "cameras", "lenses", "countries", "albums",
   "photos_albums", "labels", "categories", "photos_labels", "keywords",
   "photos_keywords", "links"]

/-- `attempts := 100` in `WaitForMigration`. -/
def attempts : Nat := 100

/-- The inner loop of `WaitForMigration` for one table,
`for i := 0; i <= attempts; i++`, parameterized by the current loop index
`i` and by `rem = attempts - i`, the number of iterations that remain after
the current one.  Each iteration issues the probe; on success it breaks out
(`Outcome.ok`); on failure at `i == attempts` it panics before sleeping;
otherwise it sleeps 50ms and retries. -/
def waitTableLoop (name : String) (probe : Nat → Bool) : Nat → Nat → Trace × Outcome
  | i, 0 =>
    if probe i then ([Event.probeCall name], Outcome.ok)
    else ([Event.probeCall name], Outcome.panicked)
  | i, rem + 1 =>
    if probe i then ([Event.probeCall name], Outcome.ok)
    else
      let (t, o) := waitTableLoop name probe (i + 1) rem
      (Event.probeCall name :: Event.sleep :: t, o)

/-- The wait for a single table: the loop started at `i = 0` with
`attempts` further iterations available. -/
def waitTable (name : String) (probe : Nat → Bool) : Trace × Outcome :=
  waitTableLoop name probe 0 attempts

/-- `Types.WaitForMigration`: wait for each registered table in turn; a
panic aborts the whole function. -/
def waitForMigration (env : DbEnv) : Registry → Trace × Outcome
  | [] => ([], Outcome.ok)
  | name :: rest =>
    let (t, o) := waitTable name (env.probe name)
    match o with
    | Outcome.ok =>
      let (t2, o2) := waitForMigration env rest
      (t ++ t2, o2)
    | Outcome.panicked => (t, Outcome.panicked)

/-- `Types.Migrate`: one `AutoMigrate` call per registered entity, panicking
on the first error; calls already made are not undone. -/
def migrate (env : DbEnv) : Registry → Trace × Outcome
  | [] => ([], Outcome.ok)
  | e :: rest =>
    if env.migrateErr e then ([Event.createCall e], Outcome.panicked)
    else
      let (t, o) := migrate env rest
      (Event.createCall e :: t, o)

/-- `Types.Drop`: one `DropTableIfExists` call per registered entity,
panicking on the first error; calls already made are not undone. -/
def drop (env : DbEnv) : Registry → Trace × Outcome
  | [] => ([], Outcome.ok)
  | e :: rest =>
    if env.dropErr e then ([Event.dropCall e], Outcome.panicked)
    else
      let (t, o) := drop env rest
      (Event.dropCall e :: t, o)

/-- The reference entities seeded by `MigrateDb`, in call order:
`CreateUnknownPlace`, `CreateUnknownCountry`, `CreateUnknownCamera`,
`CreateUnknownLens`. -/
def seedEntities : List String := ["place", "country", "camera", "lens"]

/-- Seed-row state: number of default/unknown rows per reference entity. -/
abbrev SeedRows := String → Nat

/-- Modelled from the spec: the seed constructors (`CreateUnknownPlace`,
`CreateUnknownCountry`, `CreateUnknownCamera`, `CreateUnknownLens`) are
collaborators outside this source file; per the spec each is a
parameterless idempotent insert-if-absent of one canonical default row for
its reference entity. -/
def createUnknown (e : String) (rows : SeedRows) : SeedRows :=
  fun x => if x = e then (if rows e = 0 then 1 else rows e) else rows x

/-- The seed-row state after the four seed constructor calls of `MigrateDb`. -/
def seedAll (rows : SeedRows) : SeedRows :=
  createUnknown "lens" (createUnknown "camera" (createUnknown "country"
    (createUnknown "place" rows)))

/-- `MigrateDb`: `Entities.Migrate()` then `Entities.WaitForMigration()`
then the four seed constructor calls.  A panic in an earlier step aborts
the rest.  Returns the trace, the outcome and the resulting seed-row
state. -/
def migrateDb (env : DbEnv) (registry : Registry) (rows : SeedRows) :
    Trace × Outcome × SeedRows :=
  let (t1, o1) := migrate env registry
  match o1 with
  | Outcome.panicked => (t1, Outcome.panicked, rows)
  | Outcome.ok =>
    let (t2, o2) := waitForMigration env registry
    match o2 with
    | Outcome.panicked => (t1 ++ t2, Outcome.panicked, rows)
    | Outcome.ok =>
      (t1 ++ t2 ++ seedEntities.map Event.seedInsert, Outcome.ok, seedAll rows)

/-- `DropTables`: `Entities.Drop()`. -/
def dropTables (env : DbEnv) (registry : Registry) : Trace × Outcome :=
  drop env registry

/-- `ResetDb(testFixtures)`: `DropTables()` then `MigrateDb()`, then
`CreateTestFixtures()` when `testFixtures` is set. -/
def resetDb (env : DbEnv) (registry : Registry) (rows : SeedRows)
    (testFixtures : Bool) : Trace × Outcome × SeedRows :=
  let (t1, o1) := dropTables env registry
  match o1 with
  | Outcome.panicked => (t1, Outcome.panicked, rows)
  | Outcome.ok =>
    let (t2, o2, rows2) := migrateDb env registry rows
    match o2 with
    | Outcome.panicked => (t1 ++ t2, Outcome.panicked, rows2)
    | Outcome.ok =>
      if testFixtures then (t1 ++ t2 ++ [Event.fixtures], Outcome.ok, rows2)
      else (t1 ++ t2, Outcome.ok, rows2)

/-- The `Gorm` connection handle built by `InitTestDb`. -/
structure Gorm where
  Driver : String
  Dsn : String
  deriving DecidableEq, Repr

/-- Process-wide mutable state read and written by the test-init entry
points: the singly-registered provider handle (modelled from the spec:
`HasDbProvider` / `SetDbProvider` live outside this source file, as a
single-assignment process-wide handle) and whether `resetFixturesOnce` has
already fired. -/
structure ProcState where
  dbProvider : Option Gorm
  fixturesDone : Bool
  deriving DecidableEq, Repr

/-- `InitTestFixtures`: `resetFixturesOnce.Do(func() { ResetDb(true) })`.
In this sequential model the `sync.Once` is the `fixturesDone` flag; the
body runs only when the flag is still unset, and the flag is set afterwards
even if the body panicked (as `sync.Once.Do` does). -/
def initTestFixtures (env : DbEnv) (registry : Registry) (done : Bool)
    (rows : SeedRows) : Bool × Trace × Outcome × SeedRows :=
  if done then (true, [], Outcome.ok, rows)
  else
    let (t, o, rows2) := resetDb env registry rows true
    (true, t, o, rows2)

/-- `InitTestDb(dsn)`: a no-op returning `nil` when a provider is already
registered; otherwise builds a `Gorm{Driver: "mysql", Dsn: dsn}` handle,
registers it as the provider, runs `InitTestFixtures()` and returns the
handle.  Result: (returned handle, new process state, trace, outcome,
seed rows). -/
def initTestDb (env : DbEnv) (registry : Registry) (st : ProcState)
    (rows : SeedRows) (dsn : String) :
    Option Gorm × ProcState × Trace × Outcome × SeedRows :=
  if st.dbProvider.isSome then (none, st, [], Outcome.ok, rows)
  else
    let db : Gorm := { Driver := "mysql", Dsn := dsn }
    let (done2, t, o, rows2) := initTestFixtures env registry st.fixturesDone rows
    (some db, { dbProvider := some db, fixturesDone := done2 },
     Event.setProvider :: t, o, rows2)

/-- An environment in which every probe succeeds immediately and no
collaborator call errs. -/
def happyEnv : DbEnv :=
  { probe := fun _ _ => true, migrateErr := fun _ => false, dropErr := fun _ => false }

/-- An environment in which every probe fails forever and no migrate/drop
call errs. -/
def deadProbeEnv : DbEnv :=
  { probe := fun _ _ => false, migrateErr := fun _ => false, dropErr := fun _ => false }

/-! ## Lemmas about the per-table wait loop -/

lemma waitTableLoop_never (name : String) (probe : Nat → Bool)
    (h : ∀ i, probe i = false) :
    ∀ rem i,
      (waitTableLoop name probe i rem).1.count (Event.probeCall name) = rem + 1 ∧
      (waitTableLoop name probe i rem).1.count Event.sleep = rem ∧
      (waitTableLoop name probe i rem).2 = Outcome.panicked := by
  intro rem
  induction rem with
  | zero =>
    intro i
    simp [waitTableLoop, h i]
  | succ rem ih =>
    intro i
    obtain ⟨hc, hs, ho⟩ := ih (i + 1)
    rcases hw : waitTableLoop name probe (i + 1) rem with ⟨t, o⟩
    rw [hw] at hc hs ho
    simp only [waitTableLoop, h i, Bool.false_eq_true, if_false, hw]
    simp_all [List.count_cons]

lemma waitTableLoop_probe_bound (name : String) (probe : Nat → Bool) :
    ∀ rem i,
      (waitTableLoop name probe i rem).1.count (Event.probeCall name) ≤ rem + 1 := by
  intro rem
  induction rem with
  | zero =>
    intro i
    by_cases h : probe i <;> simp [waitTableLoop, h]
  | succ rem ih =>
    intro i
    by_cases h : probe i
    · simp [waitTableLoop, h]
    · have := ih (i + 1)
      rcases hw : waitTableLoop name probe (i + 1) rem with ⟨t, o⟩
      rw [hw] at this
      simp only [waitTableLoop, h, Bool.false_eq_true, if_false, hw]
      simp_all [List.count_cons]

lemma waitTableLoop_first_success (name : String) (probe : Nat → Bool) :
    ∀ rem i s, i ≤ s → s ≤ i + rem → probe s = true →
      (∀ j, i ≤ j → j < s → probe j = false) →
      (waitTableLoop name probe i rem).1.count (Event.probeCall name) = s - i + 1 ∧
      (waitTableLoop name probe i rem).1.count Event.sleep = s - i ∧
      (waitTableLoop name probe i rem).2 = Outcome.ok := by
  intro rem
  induction rem with
  | zero =>
    intro i s h1 h2 hs _
    have he : s = i := by omega
    subst he
    simp [waitTableLoop, hs]
  | succ rem ih =>
    intro i s h1 h2 hs hf
    by_cases hpi : probe i
    · have he : s = i := by
        by_contra hne
        have hlt : i < s := lt_of_le_of_ne h1 (Ne.symm hne)
        rw [hf i le_rfl hlt] at hpi
        exact Bool.false_ne_true hpi
      subst he
      simp [waitTableLoop, hpi]
    · have hlt : i < s := by
        rcases Nat.lt_or_ge i s with h | h
        · exact h
        · have he : s = i := by omega
          rw [he] at hs
          rw [hs] at hpi
          exact absurd rfl hpi
      obtain ⟨hc, hsl, ho⟩ := ih (i + 1) s hlt (by omega) hs
        (fun j hj1 hj2 => hf j (by omega) hj2)
      rcases hw : waitTableLoop name probe (i + 1) rem with ⟨t, o⟩
      rw [hw] at hc hsl ho
      simp only [waitTableLoop, hpi, Bool.false_eq_true, if_false, hw]
      simp_all [List.count_cons]
      omega

/-! ## Lemmas about the seed-row state -/

lemma createUnknown_ne (e x : String) (r : SeedRows) (hx : x ≠ e) :
    createUnknown e r x = r x := by
  simp [createUnknown, hx]

lemma createUnknown_self (e : String) (r : SeedRows) :
    createUnknown e r e = if r e = 0 then 1 else r e := by
  simp [createUnknown]

lemma seedAll_mem (r : SeedRows) (e : String) (he : e ∈ seedEntities) :
    seedAll r e = if r e = 0 then 1 else r e := by
  fin_cases he <;>
    simp [seedAll, createUnknown]

lemma seedAll_not_mem (r : SeedRows) (x : String) (hx : x ∉ seedEntities) :
    seedAll r x = r x := by
  simp only [seedEntities, List.mem_cons, List.not_mem_nil, or_false,
    not_or] at hx
  obtain ⟨h1, h2, h3, h4⟩ := hx
  rw [seedAll, createUnknown_ne _ _ _ h4, createUnknown_ne _ _ _ h3,
    createUnknown_ne _ _ _ h2, createUnknown_ne _ _ _ h1]

lemma seedAll_mem_ne_zero (r : SeedRows) (e : String) (he : e ∈ seedEntities) :
    seedAll r e ≠ 0 := by
  rw [seedAll_mem r e he]
  split <;> omega

lemma seedAll_idem (r : SeedRows) (x : String) :
    seedAll (seedAll r) x = seedAll r x := by
  by_cases hx : x ∈ seedEntities
  · rw [seedAll_mem _ _ hx, if_neg (seedAll_mem_ne_zero r x hx)]
  · rw [seedAll_not_mem _ _ hx, seedAll_not_mem _ _ hx]

/-! ## Lemmas about migrate, drop and the composed traces -/

lemma migrate_panicked_iff (env : DbEnv) :
    ∀ l : Registry,
      ((migrate env l).2 = Outcome.panicked ↔ ∃ e ∈ l, env.migrateErr e = true) := by
  intro l
  induction l with
  | nil => simp [migrate]
  | cons e rest ih =>
    by_cases h : env.migrateErr e
    · simp [migrate, h]
    · rcases hm : migrate env rest with ⟨t, o⟩
      rw [hm] at ih
      simp [migrate, h, hm, ih]

lemma migrate_ok (env : DbEnv) :
    ∀ l : Registry, (∀ e ∈ l, env.migrateErr e = false) →
      migrate env l = (l.map Event.createCall, Outcome.ok) := by
  intro l
  induction l with
  | nil => simp [migrate]
  | cons e rest ih =>
    intro h
    have he := h e (List.mem_cons_self e rest)
    rw [migrate, he]
    rw [ih (fun x hx => h x (List.mem_cons_of_mem e hx))]
    simp

lemma drop_panicked_iff (env : DbEnv) :
    ∀ l : Registry,
      ((drop env l).2 = Outcome.panicked ↔ ∃ e ∈ l, env.dropErr e = true) := by
  intro l
  induction l with
  | nil => simp [drop]
  | cons e rest ih =>
    by_cases h : env.dropErr e
    · simp [drop, h]
    · rcases hd : drop env rest with ⟨t, o⟩
      rw [hd] at ih
      simp [drop, h, hd, ih]

lemma drop_ok (env : DbEnv) :
    ∀ l : Registry, (∀ e ∈ l, env.dropErr e = false) →
      drop env l = (l.map Event.dropCall, Outcome.ok) := by
  intro l
  induction l with
  | nil => simp [drop]
  | cons e rest ih =>
    intro h
    have he := h e (List.mem_cons_self e rest)
    rw [drop, he]
    rw [ih (fun x hx => h x (List.mem_cons_of_mem e hx))]
    simp

lemma fixtures_not_mem_migrate (env : DbEnv) :
    ∀ l : Registry, Event.fixtures ∉ (migrate env l).1 := by
  intro l
  induction l with
  | nil => simp [migrate]
  | cons e rest ih =>
    by_cases h : env.migrateErr e
    · simp [migrate, h]
    · rcases hm : migrate env rest with ⟨t, o⟩
      rw [hm] at ih
      simp [migrate, h, hm]
      exact ih

lemma fixtures_not_mem_drop (env : DbEnv) :
    ∀ l : Registry, Event.fixtures ∉ (drop env l).1 := by
  intro l
  induction l with
  | nil => simp [drop]
  | cons e rest ih =>
    by_cases h : env.dropErr e
    · simp [drop, h]
    · rcases hd : drop env rest with ⟨t, o⟩
      rw [hd] at ih
      simp [drop, h, hd]
      exact ih

lemma fixtures_not_mem_waitTableLoop (name : String) (probe : Nat → Bool) :
    ∀ rem i, Event.fixtures ∉ (waitTableLoop name probe i rem).1 := by
  intro rem
  induction rem with
  | zero =>
    intro i
    by_cases h : probe i <;> simp [waitTableLoop, h]
  | succ rem ih =>
    intro i
    by_cases h : probe i
    · simp [waitTableLoop, h]
    · rcases hw : waitTableLoop name probe (i + 1) rem with ⟨t, o⟩
      have := ih (i + 1)
      rw [hw] at this
      simp [waitTableLoop, h, hw]
      exact this

lemma fixtures_not_mem_waitForMigration (env : DbEnv) :
    ∀ l : Registry, Event.fixtures ∉ (waitForMigration env l).1 := by
  intro l
  induction l with
  | nil => simp [waitForMigration]
  | cons name rest ih =>
    rcases hw : waitTable name (env.probe name) with ⟨t, o⟩
    have ht : Event.fixtures ∉ t := by
      have := fixtures_not_mem_waitTableLoop name (env.probe name) attempts 0
      rw [show waitTableLoop name (env.probe name) 0 attempts = (t, o) from hw] at this
      exact this
    cases o with
    | ok =>
      rcases hr : waitForMigration env rest with ⟨t2, o2⟩
      rw [hr] at ih
      simp [waitForMigration, hw, hr]
      exact ⟨ht, ih⟩
    | panicked =>
      simp [waitForMigration, hw]
      exact ht

lemma fixtures_not_mem_migrateDb (env : DbEnv) (l : Registry) (rows : SeedRows) :
    Event.fixtures ∉ (migrateDb env l rows).1 := by
  rcases hm : migrate env l with ⟨t1, o1⟩
  have h1 : Event.fixtures ∉ t1 := by
    have := fixtures_not_mem_migrate env l
    rw [hm] at this
    exact this
  cases o1 with
  | panicked => simp [migrateDb, hm]; exact h1
  | ok =>
    rcases hw : waitForMigration env l with ⟨t2, o2⟩
    have h2 : Event.fixtures ∉ t2 := by
      have := fixtures_not_mem_waitForMigration env l
      rw [hw] at this
      exact this
    cases o2 with
    | panicked =>
      simp [migrateDb, hm, hw]
      exact ⟨h1, h2⟩
    | ok =>
      simp [migrateDb, hm, hw, seedEntities]
      exact ⟨h1, h2⟩

/-! ## Claim theorems -/

/-- C1 (counterexample): for the table `photos` with a probe that never
succeeds, the wait loop issues 101 probe queries, not the 100 claimed: the
Go loop `for i := 0; i <= attempts; i++` with `attempts := 100` has an
inclusive bound, so the attempt ceiling is exceeded by one. -/
theorem waitTable_exactly_100_probes_false :
    (waitTable "photos" (fun _ => false)).1.count (Event.probeCall "photos") = 101 ∧
    (waitTable "photos" (fun _ => false)).1.count (Event.probeCall "photos") ≠ 100 := by
  have h := (waitTableLoop_never "photos" (fun _ => false) (fun _ => rfl) attempts 0).1
  have h101 : attempts + 1 = 101 := by decide
  rw [h101] at h
  rw [show waitTable "photos" (fun _ => false) =
    waitTableLoop "photos" (fun _ => false) 0 attempts from rfl]
  exact ⟨h, by rw [h]; decide⟩

/-- C1 (amended): for every registered table whose probe query never
succeeds, `WaitForMigration` performs exactly 101 probe attempts (one more
than the attempt-ceiling constant 100, because the loop bound `i <=
attempts` is inclusive) and 100 backoff sleeps before failing fatally with
a panic; it never makes more than 101 probes for a single table. -/
theorem waitTable_exhausts_101_probes (name : String) (probe : Nat → Bool)
    (h : ∀ i, probe i = false) :
    (waitTable name probe).1.count (Event.probeCall name) = 101 ∧
    (waitTable name probe).1.count Event.sleep = 100 ∧
    (waitTable name probe).2 = Outcome.panicked ∧
    ∀ q : Nat → Bool, (waitTable name q).1.count (Event.probeCall name) ≤ 101 := by
  obtain ⟨h1, h2, h3⟩ := waitTableLoop_never name probe h attempts 0
  have h101 : attempts + 1 = 101 := by decide
  refine ⟨by rw [← h101]; exact h1, by rw [show (100 : Nat) = attempts from rfl]; exact h2, h3, ?_⟩
  intro q
  have := waitTableLoop_probe_bound name q attempts 0
  rw [h101] at this
  exact this

/-- Witness for C1: a concrete never-readable table hits 101 probes, 100
sleeps and panics. -/
theorem waitTable_exhausts_101_probes_witness :
    (waitTable "photos" (fun _ => false)).1.count (Event.probeCall "photos") = 101 ∧
    (waitTable "photos" (fun _ => false)).1.count Event.sleep = 100 ∧
    (waitTable "photos" (fun _ => false)).2 = Outcome.panicked :=
  ⟨(waitTable_exhausts_101_probes "photos" (fun _ => false) (fun _ => rfl)).1,
   (waitTable_exhausts_101_probes "photos" (fun _ => false) (fun _ => rfl)).2.1,
   (waitTable_exhausts_101_probes "photos" (fun _ => false) (fun _ => rfl)).2.2.1⟩

/-- C2: a table whose probe first succeeds on the k-th attempt (1 ≤ k <
100) gets exactly k probes and k-1 sleeps, the wait for it returns
normally, and `WaitForMigration` then moves on to the remaining tables;
k = 1 gives zero sleeps. -/
theorem waitTable_kth_attempt (env : DbEnv) (name : String) (rest : Registry)
    (k : Nat) (hk1 : 1 ≤ k) (hk2 : k < 100)
    (hs : env.probe name (k - 1) = true)
    (hf : ∀ i, i < k - 1 → env.probe name i = false) :
    (waitTable name (env.probe name)).1.count (Event.probeCall name) = k ∧
    (waitTable name (env.probe name)).1.count Event.sleep = k - 1 ∧
    (waitTable name (env.probe name)).2 = Outcome.ok ∧
    waitForMigration env (name :: rest) =
      ((waitTable name (env.probe name)).1 ++ (waitForMigration env rest).1,
       (waitForMigration env rest).2) := by
  obtain ⟨h1, h2, h3⟩ := waitTableLoop_first_success name (env.probe name)
    attempts 0 (k - 1) (Nat.zero_le _) (by simp [attempts]; omega) hs
    (fun j _ hj2 => hf j hj2)
  have hk : k - 1 - 0 + 1 = k := by omega
  have hk' : k - 1 - 0 = k - 1 := by omega
  rw [hk] at h1
  rw [hk'] at h2
  refine ⟨h1, h2, h3, ?_⟩
  rcases hw : waitTable name (env.probe name) with ⟨t, o⟩
  have ho : o = Outcome.ok := by
    rw [show waitTableLoop name (env.probe name) 0 attempts = (t, o) from hw] at h3
    exact h3
  subst ho
  rcases hr : waitForMigration env rest with ⟨t2, o2⟩
  simp [waitForMigration, hw, hr]

/-- Witness for C2: probe first succeeds on attempt 3 (index 2): exactly 3
probes, 2 sleeps, normal return, and the next table is processed. -/
theorem waitTable_kth_attempt_witness :
    (waitTable "cameras" (DbEnv.probe ⟨fun _ i => decide (2 ≤ i), fun _ => false, fun _ => false⟩ "cameras")).1.count (Event.probeCall "cameras") = 3 ∧
    (waitTable "cameras" (DbEnv.probe ⟨fun _ i => decide (2 ≤ i), fun _ => false, fun _ => false⟩ "cameras")).1.count Event.sleep = 2 ∧
    (waitTable "cameras" (DbEnv.probe ⟨fun _ i => decide (2 ≤ i), fun _ => false, fun _ => false⟩ "cameras")).2 = Outcome.ok ∧
    waitForMigration ⟨fun _ i => decide (2 ≤ i), fun _ => false, fun _ => false⟩ ("cameras" :: []) =
      ((waitTable "cameras" (DbEnv.probe ⟨fun _ i => decide (2 ≤ i), fun _ => false, fun _ => false⟩ "cameras")).1 ++
        (waitForMigration ⟨fun _ i => decide (2 ≤ i), fun _ => false, fun _ => false⟩ []).1,
       (waitForMigration ⟨fun _ i => decide (2 ≤ i), fun _ => false, fun _ => false⟩ []).2) :=
  waitTable_kth_attempt ⟨fun _ i => decide (2 ≤ i), fun _ => false, fun _ => false⟩
    "cameras" [] 3 (by decide) (by decide) (by decide)
    (fun i hi => decide_eq_false (by omega))

/-- C3: for a registry of exactly cameras and lenses, both probe-readable
on the first attempt, `MigrateDb` produces exactly this trace: one
`AutoMigrate` call per entity, then one probe per table with no sleeps,
then the four default seed insertions (place, country, camera, lens) once
each, in that order, returning normally. -/
theorem migrateDb_cameras_lenses_scenario :
    migrateDb happyEnv ["cameras", "lenses"] (fun _ => 0) =
      ([Event.createCall "cameras", Event.createCall "lenses",
        Event.probeCall "cameras", Event.probeCall "lenses",
        Event.seedInsert "place", Event.seedInsert "country",
        Event.seedInsert "camera", Event.seedInsert "lens"],
       Outcome.ok, seedAll (fun _ => 0)) := rfl

lemma migrate_stops_at_first_error (env : DbEnv) (bad : String) (post : Registry)
    (hbad : env.migrateErr bad = true) :
    ∀ pre : Registry, (∀ e ∈ pre, env.migrateErr e = false) →
      migrate env (pre ++ bad :: post) =
        (pre.map Event.createCall ++ [Event.createCall bad], Outcome.panicked) := by
  intro pre
  induction pre with
  | nil => intro _; simp [migrate, hbad]
  | cons e rest ih =>
    intro h1
    have he := h1 e (List.mem_cons_self e rest)
    have ih' := ih (fun x hx => h1 x (List.mem_cons_of_mem e hx))
    simp [migrate, he, ih']

lemma drop_stops_at_first_error (env : DbEnv) (bad : String) (post : Registry)
    (hbad : env.dropErr bad = true) :
    ∀ pre : Registry, (∀ e ∈ pre, env.dropErr e = false) →
      drop env (pre ++ bad :: post) =
        (pre.map Event.dropCall ++ [Event.dropCall bad], Outcome.panicked) := by
  intro pre
  induction pre with
  | nil => intro _; simp [drop, hbad]
  | cons e rest ih =>
    intro h1
    have he := h1 e (List.mem_cons_self e rest)
    have ih' := ih (fun x hx => h1 x (List.mem_cons_of_mem e hx))
    simp [drop, he, ih']

/-- An environment in which exactly the collaborator calls for the entity
registered as `files` err, and every probe succeeds. -/
def filesErrEnv : DbEnv :=
  { probe := fun _ _ => true,
    migrateErr := fun e => e == "files",
    dropErr := fun e => e == "files" }

/-- C4: when neither the drop pass nor the migrate pass panics,
`ResetDb(testFixtures)` performs exactly drop-all-tables followed by the
full migrate (create, wait, seed), and the test-fixture population routine
runs if and only if `testFixtures` is true. -/
theorem resetDb_sequence (env : DbEnv) (registry : Registry) (rows : SeedRows)
    (tf : Bool)
    (h1 : (dropTables env registry).2 = Outcome.ok)
    (h2 : (migrateDb env registry rows).2.1 = Outcome.ok) :
    (resetDb env registry rows tf).1 =
      (dropTables env registry).1 ++ (migrateDb env registry rows).1 ++
        (if tf then [Event.fixtures] else []) ∧
    (Event.fixtures ∈ (resetDb env registry rows tf).1 ↔ tf = true) := by
  have hnd := fixtures_not_mem_drop env registry
  have hnm := fixtures_not_mem_migrateDb env registry rows
  simp only [dropTables] at h1 ⊢
  rcases hd : drop env registry with ⟨t1, o1⟩
  rcases hm : migrateDb env registry rows with ⟨t2, o2, r2⟩
  rw [hd] at h1 hnd
  rw [hm] at h2 hnm
  simp only at h1 h2 hnd hnm
  subst h1
  subst h2
  constructor
  · cases tf <;> simp [resetDb, dropTables, hd, hm]
  · cases tf <;> simp [resetDb, dropTables, hd, hm, hnd, hnm]

/-- Witness for C4: the concrete cameras-only registry with fixtures
requested. -/
theorem resetDb_sequence_witness :
    (resetDb happyEnv ["cameras"] (fun _ => 0) true).1 =
      (dropTables happyEnv ["cameras"]).1 ++
        (migrateDb happyEnv ["cameras"] (fun _ => 0)).1 ++
        (if true then [Event.fixtures] else []) ∧
    (Event.fixtures ∈ (resetDb happyEnv ["cameras"] (fun _ => 0) true).1 ↔
      true = true) :=
  resetDb_sequence happyEnv ["cameras"] (fun _ => 0) true rfl rfl

/-- C5: when migrate and wait both return normally, running `MigrateDb`
twice from an empty seed state yields the same seed-row state as running it
once, with exactly one default row per reference entity. -/
theorem migrateDb_seed_idempotent (env : DbEnv) (registry : Registry)
    (h1 : (migrate env registry).2 = Outcome.ok)
    (h2 : (waitForMigration env registry).2 = Outcome.ok) :
    (∀ x, (migrateDb env registry
        ((migrateDb env registry (fun _ => 0)).2.2)).2.2 x =
      (migrateDb env registry (fun _ => 0)).2.2 x) ∧
    (∀ e ∈ seedEntities, (migrateDb env registry (fun _ => 0)).2.2 e = 1) := by
  rcases hm : migrate env registry with ⟨t1, o1⟩
  rcases hw : waitForMigration env registry with ⟨t2, o2⟩
  rw [hm] at h1
  rw [hw] at h2
  simp only at h1 h2
  subst h1
  subst h2
  have hrows : ∀ rows : SeedRows,
      (migrateDb env registry rows).2.2 = seedAll rows := by
    intro rows
    simp [migrateDb, hm, hw]
  simp only [hrows]
  refine ⟨fun x => seedAll_idem _ x, fun e he => ?_⟩
  rw [seedAll_mem _ _ he]
  simp

/-- Witness for C5: with the cameras-only registry under `happyEnv`, a
second run leaves the unknown-camera count at exactly one. -/
theorem migrateDb_seed_idempotent_witness :
    (migrateDb happyEnv ["cameras"]
        ((migrateDb happyEnv ["cameras"] (fun _ => 0)).2.2)).2.2 "camera" =
      (migrateDb happyEnv ["cameras"] (fun _ => 0)).2.2 "camera" ∧
    (migrateDb happyEnv ["cameras"] (fun _ => 0)).2.2 "camera" = 1 :=
  ⟨(migrateDb_seed_idempotent happyEnv ["cameras"] rfl rfl).1 "camera",
   (migrateDb_seed_idempotent happyEnv ["cameras"] rfl rfl).2 "camera"
     (by decide)⟩

/-- C6: `Migrate` (resp. `Drop`) ends in a panic exactly when some
registered entity's `AutoMigrate` (resp. `DropTableIfExists`) call errs —
no error value is ever returned — and when no call errs it returns
normally having made one collaborator call per registered entity. -/
theorem migrate_drop_fatal (env : DbEnv) (registry : Registry) :
    ((migrate env registry).2 = Outcome.panicked ↔
      ∃ e ∈ registry, env.migrateErr e = true) ∧
    ((∀ e ∈ registry, env.migrateErr e = false) →
      migrate env registry = (registry.map Event.createCall, Outcome.ok)) ∧
    ((drop env registry).2 = Outcome.panicked ↔
      ∃ e ∈ registry, env.dropErr e = true) ∧
    ((∀ e ∈ registry, env.dropErr e = false) →
      drop env registry = (registry.map Event.dropCall, Outcome.ok)) :=
  ⟨migrate_panicked_iff env registry, migrate_ok env registry,
   drop_panicked_iff env registry, drop_ok env registry⟩

/-- Witness for C6: with no collaborator errors, migrate and drop of the
cameras-only registry return normally after one call each. -/
theorem migrate_drop_fatal_witness :
    migrate happyEnv ["cameras"] =
      (["cameras"].map Event.createCall, Outcome.ok) ∧
    drop happyEnv ["cameras"] = (["cameras"].map Event.dropCall, Outcome.ok) :=
  ⟨(migrate_drop_fatal happyEnv ["cameras"]).2.1 (fun _ _ => rfl),
   (migrate_drop_fatal happyEnv ["cameras"]).2.2.2 (fun _ _ => rfl)⟩

/-- C9: `Migrate` and `Drop` are not atomic on failure: when the
collaborator call for entity `bad` errs after the entities in `pre`
succeeded, the panic happens with the calls for every entity of `pre` (and
the failing call itself) already made, and the trace ends there — nothing
is undone and no compensation is performed. -/
theorem migrate_drop_no_rollback (env : DbEnv) (pre post : Registry)
    (bad : String)
    (h1 : ∀ e ∈ pre, env.migrateErr e = false) (h2 : env.migrateErr bad = true)
    (h3 : ∀ e ∈ pre, env.dropErr e = false) (h4 : env.dropErr bad = true) :
    migrate env (pre ++ bad :: post) =
      (pre.map Event.createCall ++ [Event.createCall bad], Outcome.panicked) ∧
    drop env (pre ++ bad :: post) =
      (pre.map Event.dropCall ++ [Event.dropCall bad], Outcome.panicked) :=
  ⟨migrate_stops_at_first_error env bad post h2 pre h1,
   drop_stops_at_first_error env bad post h4 pre h3⟩

/-- Witness for C9: with only the `files` calls erring, migrating or
dropping accounts, files, photos stops right after the failing `files`
call, keeping the `accounts` call in the trace. -/
theorem migrate_drop_no_rollback_witness :
    migrate filesErrEnv (["accounts"] ++ "files" :: ["photos"]) =
      (["accounts"].map Event.createCall ++ [Event.createCall "files"],
       Outcome.panicked) ∧
    drop filesErrEnv (["accounts"] ++ "files" :: ["photos"]) =
      (["accounts"].map Event.dropCall ++ [Event.dropCall "files"],
       Outcome.panicked) :=
  migrate_drop_no_rollback filesErrEnv ["accounts"] ["photos"] "files"
    (by decide) (by decide) (by decide) (by decide)

/-- C7: when a database provider is already registered, `InitTestDb`
returns `nil`, leaves the process state unchanged (no new provider, the
fixture gate untouched), performs no collaborator call at all and touches
no seed row. -/
theorem initTestDb_already_registered (env : DbEnv) (registry : Registry)
    (st : ProcState) (rows : SeedRows) (dsn : String) (g : Gorm)
    (h : st.dbProvider = some g) :
    initTestDb env registry st rows dsn = (none, st, [], Outcome.ok, rows) := by
  simp [initTestDb, h]

/-- Witness for C7: a second `InitTestDb` call with a provider already in
place is a complete no-op. -/
theorem initTestDb_already_registered_witness :
    initTestDb happyEnv ["cameras"]
        ⟨some ⟨"mysql", "old"⟩, true⟩ (fun _ => 0) "new" =
      (none, ⟨some ⟨"mysql", "old"⟩, true⟩, [], Outcome.ok, fun _ => 0) :=
  initTestDb_already_registered happyEnv ["cameras"]
    ⟨some ⟨"mysql", "old"⟩, true⟩ (fun _ => 0) "new" ⟨"mysql", "old"⟩ rfl

/-- C10: when no provider is registered yet, `InitTestDb(dsn)` returns a
non-nil handle with driver `mysql` and the given dsn, registers exactly
that handle as the process-wide provider, and the registration event
precedes the whole one-time fixture initialization in the trace. -/
theorem initTestDb_fresh_registers (env : DbEnv) (registry : Registry)
    (st : ProcState) (rows : SeedRows) (dsn : String)
    (h : st.dbProvider = none) :
    (initTestDb env registry st rows dsn).1 =
      some { Driver := "mysql", Dsn := dsn } ∧
    (initTestDb env registry st rows dsn).2.1.dbProvider =
      some { Driver := "mysql", Dsn := dsn } ∧
    (initTestDb env registry st rows dsn).2.2.1 =
      Event.setProvider ::
        (initTestFixtures env registry st.fixturesDone rows).2.1 := by
  rcases hi : initTestFixtures env registry st.fixturesDone rows with ⟨d, t, o, r⟩
  simp [initTestDb, h, hi]

/-- Witness for C10: a fresh process state gets the `mysql` handle for the
given dsn registered ahead of the fixture initialization. -/
theorem initTestDb_fresh_registers_witness :
    (initTestDb happyEnv ["cameras"] ⟨none, false⟩ (fun _ => 0) "dsn").1 =
      some { Driver := "mysql", Dsn := "dsn" } ∧
    (initTestDb happyEnv ["cameras"] ⟨none, false⟩ (fun _ => 0) "dsn").2.1.dbProvider =
      some { Driver := "mysql", Dsn := "dsn" } ∧
    (initTestDb happyEnv ["cameras"] ⟨none, false⟩ (fun _ => 0) "dsn").2.2.1 =
      Event.setProvider ::
        (initTestFixtures happyEnv ["cameras"]
          (ProcState.fixturesDone ⟨none, false⟩) (fun _ => 0)).2.1 :=
  initTestDb_fresh_registers happyEnv ["cameras"] ⟨none, false⟩ (fun _ => 0)
    "dsn" rfl

end Entity
